import Mathlib

/-!
# ISS spotter: the callback pipeline (`iss.js`) and the promise pipeline (`iss_promised.js`)

The program chains three HTTP GET requests: the caller's IP address, the
coordinates of that address, the ISS pass times over those coordinates.

Embedding.
* JavaScript values are the type `JVal`. A number is carried as its decimal
  rendering (`Number::toString`): the program never computes with a number, it
  only interpolates it into a URL.
* `JSON.parse` is a library primitive: it is the argument `parse`, where `none`
  stands for the `SyntaxError` it throws.
* The HTTP transport is the argument `t : Transport`: the answer `request`
  hands to its callback, given the URLs requested before and the URL asked for.
* `iss.js` is continuation-passing code; it is embedded as continuation-passing
  code over a `World` that records the URLs requested and the calls made to
  the observer callback `record`. An exception thrown inside a `request`
  callback is caught by nobody: the run ends in `Outcome.uncaught`.
* `iss_promised.js` is embedded in the promise monad `Promise`: a promise
  either resolves with a value or rejects with a `Reason`; `.then` is `andThen`.
-/

set_option maxRecDepth 20000

namespace IssSpotter

/-! ## JavaScript values -/

/-- A JavaScript value: the results of `JSON.parse`, `undefined`, and `Error` objects. -/
inductive JVal where
  | undefined
  | null
  | bool (b : Bool)
  | num (text : String)
  | str (s : String)
  | arr (items : List JVal)
  | obj (fields : List (String × JVal))
  | error (name message : String)

/-- The exceptions the program can throw: `SyntaxError` by `JSON.parse`,
`TypeError` by a property read on `null` or `undefined` and by a failed
conversion of an object to a string. -/
inductive JsExc where
  | syntaxError
  | typeError
  deriving DecidableEq, Repr

/-- JavaScript truthiness, the test of `if (error)`. -/
def truthy : JVal → Bool
  | .undefined => false
  | .null => false
  | .bool b => b
  | .num text => !(text == "0" || text == "NaN")
  | .str s => !(s == "")
  | .arr _ => true
  | .obj _ => true
  | .error _ _ => true

/-- Own property of an object literal, first match. -/
def lookupField (key : String) : List (String × JVal) → Option JVal
  | [] => none
  | (k, v) :: rest => if k = key then some v else lookupField key rest

/-- Property read `v.key`, for the keys the program reads (`ip`, `data`,
`latitude`, `longitude`, `response`), none of which is inherited from a
prototype: a `TypeError` on `null` and `undefined`, the own property of an
object or `undefined`, and `undefined` on every other value. -/
def getProp (key : String) : JVal → Except JsExc JVal
  | .undefined => .error .typeError
  | .null => .error .typeError
  | .obj fields => .ok ((lookupField key fields).getD .undefined)
  | _ => .ok .undefined

mutual
/-- The conversion `ToString` of a template literal. An object parsed from
JSON renders as `[object Object]`, unless it has an own property `toString`:
that property is not callable, `valueOf` returns the object, and the
conversion throws a `TypeError`. An array joins its elements with commas. -/
def toStr : JVal → Except JsExc String
  | .undefined => .ok "undefined"
  | .null => .ok "null"
  | .bool b => .ok (if b then "true" else "false")
  | .num text => .ok text
  | .str s => .ok s
  | .arr items => (joinItems items).map (String.intercalate ",")
  | .obj fields =>
    match lookupField "toString" fields with
    | some _ => .error .typeError
    | none => .ok "[object Object]"
  | .error name message =>
    .ok (if name = "" then message else if message = "" then name else name ++ ": " ++ message)
/-- The pieces `Array.prototype.join` puts between the commas: the empty
string for `null` and `undefined`, `toStr` of the element otherwise. -/
def joinItems : List JVal → Except JsExc (List String)
  | [] => .ok []
  | .undefined :: rest => (joinItems rest).map ("" :: ·)
  | .null :: rest => (joinItems rest).map ("" :: ·)
  | v :: rest =>
    match toStr v with
    | .error e => .error e
    | .ok s => (joinItems rest).map (s :: ·)
end

/-- The call `Error(msg)`. -/
def Error (msg : String) : JVal := .error "Error" msg

/-- The message of an `Error` object. -/
def JVal.message : JVal → Option String
  | .error _ message => some message
  | _ => none

/-! ## Transport, world, outcomes -/

/-- What `request` hands to its callback: `(error, response, body)`, of the
response only `statusCode` is read. When `error` is truthy the other two are
not read. -/
structure Reply where
  error : JVal
  statusCode : Nat
  body : String

/-- A stubbed transport: the reply to a request, given the URLs requested
before it (oldest first) and its URL. -/
abbrev Transport := List String → String → Reply

/-- The observable trace of one run: the URLs requested, oldest first, and
the calls `(error, value)` the caller's callback received, oldest first. -/
structure World where
  requests : List String
  calls : List (JVal × JVal)

/-- The world before the run. -/
def World.start : World := ⟨[], []⟩

/-- The end of a run of callback code: it finished, or an exception escaped
from a `request` callback with nobody to catch it. -/
inductive Outcome where
  | finished (w : World)
  | uncaught (e : JsExc) (w : World)

/-- The trace of a run, however it ended. -/
def Outcome.world : Outcome → World
  | .finished w => w
  | .uncaught _ w => w

/-- Continuation-passing code. -/
abbrev Task := World → Outcome

/-- An expression that may throw, then the rest of the function body. -/
def attempt {α : Type} (x : Except JsExc α) (rest : α → Task) : Task := fun w =>
  match x with
  | .error e => .uncaught e w
  | .ok a => rest a w

/-- The primitive `JSON.parse(body)` over the parser `parse`. -/
def jsonParse (parse : String → Option JVal) (body : String) : Except JsExc JVal :=
  match parse body with
  | none => .error .syntaxError
  | some v => .ok v

/-- The call `request(URL, callback)` of the package `request`: the URL is
recorded and the callback receives the transport's reply, once. -/
def request (t : Transport) (URL : String) (callback : Reply → Task) : Task := fun w =>
  callback (t w.requests URL) ⟨w.requests ++ [URL], w.calls⟩

/-- The caller's callback as an observer: it records its two arguments. -/
def record : JVal → JVal → Task := fun error value w =>
  .finished ⟨w.requests, w.calls ++ [(error, value)]⟩

/-! ## `iss.js` -/

namespace Callback

/-- `fetchMyIP(callback)` of `iss.js`. -/
def fetchMyIP (parse : String → Option JVal) (t : Transport)
    (callback : JVal → JVal → Task) : Task :=
  let URL := "https://api.ipify.org/?format=json"
  request t URL fun r =>
    if truthy r.error then
      callback r.error .null
    else if r.statusCode ≠ 200 then
      let msg := "Status Code " ++ toString r.statusCode
        ++ " when fetching IP. Response: " ++ r.body
      callback (Error msg) .null
    else
      attempt (jsonParse parse r.body >>= getProp "ip") fun ip =>
      callback r.error ip

/-- `fetchCoordsByIP(ip, callback)` of `iss.js`. -/
def fetchCoordsByIP (parse : String → Option JVal) (t : Transport) (ip : JVal)
    (callback : JVal → JVal → Task) : Task :=
  attempt (toStr ip) fun ipText =>
  let URL := "https://ipvigilante.com/" ++ ipText
  request t URL fun r =>
    if truthy r.error then
      callback r.error .null
    else if r.statusCode ≠ 200 then
      let msg := "Status Code " ++ toString r.statusCode
        ++ " when fetching coordinates for " ++ ipText ++ ". Response: " ++ r.body
      callback (Error msg) .null
    else
      attempt (jsonParse parse r.body >>= getProp "data" >>= getProp "latitude") fun latitude =>
      attempt (jsonParse parse r.body >>= getProp "data" >>= getProp "longitude") fun longitude =>
      let coords := JVal.obj [("latitude", latitude), ("longitude", longitude)]
      callback r.error coords

/-- `fetchISSFlyOverTimes(coords, callback)` of `iss.js`. -/
def fetchISSFlyOverTimes (parse : String → Option JVal) (t : Transport) (coords : JVal)
    (callback : JVal → JVal → Task) : Task :=
  attempt (getProp "latitude" coords >>= toStr) fun lat =>
  attempt (getProp "longitude" coords >>= toStr) fun lon =>
  let URL := "http://api.open-notify.org/iss-pass.json?lat=" ++ lat ++ "&lon=" ++ lon
  request t URL fun r =>
    if truthy r.error then
      callback r.error .null
    else if r.statusCode ≠ 200 then
      attempt (toStr coords) fun coordsText =>
      let msg := "Status Code " ++ toString r.statusCode
        ++ " when fetching times for " ++ coordsText ++ ". Response: " ++ r.body
      callback (Error msg) .null
    else
      attempt (jsonParse parse r.body >>= getProp "response") fun times =>
      callback r.error times

/-- `nextISSTimesForMyLocation(callback)` of `iss.js`. -/
def nextISSTimesForMyLocation (parse : String → Option JVal) (t : Transport)
    (callback : JVal → JVal → Task) : Task :=
  fetchMyIP parse t fun error ip =>
    if truthy error then
      callback error .null
    else
      fetchCoordsByIP parse t ip fun error coords =>
        if truthy error then
          callback error .null
        else
          fetchISSFlyOverTimes parse t coords fun error times =>
            if truthy error then
              callback error .null
            else
              callback .null times

end Callback

/-! ## `iss_promised.js` -/

/-- Why a promise was rejected: the two rejections of `request-promise-native`,
and an exception thrown inside a `.then` handler. -/
inductive Reason where
  | requestError (cause : JVal)
  | statusCodeError (statusCode : Nat) (body : String)
  | thrown (e : JsExc)

/-- A settled promise, with the trace of the run up to there. -/
inductive Settled (α : Type) where
  | resolved (a : α) (w : World)
  | rejected (r : Reason) (w : World)

/-- The trace of a settled promise. -/
def Settled.world {α : Type} : Settled α → World
  | .resolved _ w => w
  | .rejected _ w => w

/-- A promise, run from a world. -/
abbrev Promise (α : Type) := World → Settled α

/-- The method `p.then(f)`: `f` runs on the value `p` resolves with and the
result adopts the promise `f` returns; a rejection of `p` skips `f`. -/
def Promise.andThen {α β : Type} (p : Promise α) (f : α → Promise β) : Promise β := fun w =>
  match p w with
  | .resolved a w1 => f a w1
  | .rejected r w1 => .rejected r w1

/-- A handler that returns a plain value. -/
def Promise.value {α : Type} (a : α) : Promise α := fun w => .resolved a w

/-- An expression inside a `.then` handler that may throw, then the rest of
the handler: the exception rejects the promise the `.then` returned. -/
def attemptP {α β : Type} (x : Except JsExc α) (rest : α → Promise β) : Promise β := fun w =>
  match x with
  | .error e => .rejected (.thrown e) w
  | .ok a => rest a w

/-- The test `/^2/.test(String(statusCode))` by which `request-promise-native`
tells a success status. -/
def is2xx (statusCode : Nat) : Bool :=
  (toString statusCode).data.head? == some '2'

/-- The call `request(URL)` of the package `request-promise-native` with its
default options: the promise rejects with a `RequestError` when the transport
reports an error, with a `StatusCodeError` when the status is not 2xx, and
resolves with the body otherwise. -/
def requestPromise (t : Transport) (URL : String) : Promise String := fun w =>
  let r := t w.requests URL
  let w1 : World := ⟨w.requests ++ [URL], w.calls⟩
  if truthy r.error then .rejected (.requestError r.error) w1
  else if !is2xx r.statusCode then .rejected (.statusCodeError r.statusCode r.body) w1
  else .resolved r.body w1

namespace Promised

/-- `fetchMyIP()` of `iss_promised.js`. -/
def fetchMyIP (t : Transport) : Promise String :=
  requestPromise t "https://api.ipify.org/?format=json"

/-- `fetchCoordsByIP(body)` of `iss_promised.js`. -/
def fetchCoordsByIP (parse : String → Option JVal) (t : Transport) (body : String) :
    Promise String :=
  attemptP (jsonParse parse body >>= getProp "ip") fun ip =>
  attemptP (toStr ip) fun ipText =>
  requestPromise t ("https://ipvigilante.com/" ++ ipText)

/-- `fetchISSFlyOverTimes(body)` of `iss_promised.js`. -/
def fetchISSFlyOverTimes (parse : String → Option JVal) (t : Transport) (body : String) :
    Promise String :=
  attemptP (jsonParse parse body >>= getProp "data" >>= getProp "latitude") fun latitude =>
  attemptP (jsonParse parse body >>= getProp "data" >>= getProp "longitude") fun longitude =>
  let coords := JVal.obj [("latitude", latitude), ("longitude", longitude)]
  attemptP (getProp "latitude" coords >>= toStr) fun lat =>
  attemptP (getProp "longitude" coords >>= toStr) fun lon =>
  requestPromise t ("http://api.open-notify.org/iss-pass.json?lat=" ++ lat ++ "&lon=" ++ lon)

/-- `nextISSTimesForMyLocation()` of `iss_promised.js`. -/
def nextISSTimesForMyLocation (parse : String → Option JVal) (t : Transport) : Promise JVal :=
  (((fetchMyIP t).andThen (fetchCoordsByIP parse t)).andThen
    (fetchISSFlyOverTimes parse t)).andThen fun data =>
      attemptP (jsonParse parse data >>= getProp "response") fun times =>
      Promise.value times

end Promised

/-! ## Proof devices and sample inputs -/

/-- The end of a stage: `res` is the pair the stage calls its callback with,
or the exception it throws. -/
def deliver (res : Except JsExc (JVal × JVal)) (k : JVal → JVal → Task) : Task :=
  match res with
  | .ok (e, v) => k e v
  | .error x => fun w => .uncaught x w

/-- When the two pipelines end alike: both succeed with the same list, or the
callback pipeline calls back with an error where the promise rejects with an
error of `request-promise-native`, or an exception escapes the callback
pipeline where it rejects the promise; and the same URLs were requested. -/
def agree : Outcome → Settled JVal → Prop
  | .finished w, .resolved times wp => wp.requests = w.requests ∧ w.calls = [(.null, times)]
  | .finished w, .rejected r wp =>
    wp.requests = w.requests ∧ (∃ e, truthy e = true ∧ w.calls = [(e, .null)]) ∧
      ∀ x, r ≠ .thrown x
  | .uncaught x w, .rejected r wp => wp.requests = w.requests ∧ r = .thrown x ∧ w.calls = []
  | .uncaught _ _, .resolved _ _ => False

/-- A transport that answers the n-th request with the n-th reply of a script. -/
def scripted (replies : List Reply) : Transport := fun hist _ =>
  (replies.get? hist.length).getD ⟨.error "Error" "ECONNREFUSED", 0, ""⟩

/-- A reply with no transport error. -/
def answer (statusCode : Nat) (body : String) : Reply := ⟨.null, statusCode, body⟩

/-- A reply that is a transport error. -/
def offline : Reply := ⟨.error "Error" "getaddrinfo ENOTFOUND", 0, ""⟩

/-- Body of the IP service: the object with `ip` = `1.2.3.4`. -/
def ipBody : String := "\x7b\"ip\":\"1.2.3.4\"\x7d"

/-- Body of the location service: `data` with latitude 45.0 and longitude -73.0. -/
def coordsBody : String :=
  "\x7b\"data\":\x7b\"latitude\":45.0,\"longitude\":-73.0\x7d\x7d"

/-- Body of the pass service: one pass, risetime 1000 and duration 600. -/
def passBody : String := "\x7b\"response\":[\x7b\"risetime\":1000,\"duration\":600\x7d]\x7d"

/-- Body of the pass service: no pass. -/
def noPassBody : String := "\x7b\"response\":[]\x7d"

/-- Body of the pass service: six passes, as for the query `n=6`. -/
def sixPassBody : String :=
  "\x7b\"response\":[\x7b\"risetime\":1000,\"duration\":600\x7d,"
    ++ "\x7b\"risetime\":2000,\"duration\":610\x7d,\x7b\"risetime\":3000,\"duration\":620\x7d,"
    ++ "\x7b\"risetime\":4000,\"duration\":630\x7d,\x7b\"risetime\":5000,\"duration\":640\x7d,"
    ++ "\x7b\"risetime\":6000,\"duration\":650\x7d]\x7d"

/-- The empty JSON object. -/
def emptyObjectBody : String := "\x7b\x7d"

/-- Body of the location service whose `data` has a textual latitude and no longitude. -/
def looseCoordsBody : String := "\x7b\"data\":\x7b\"latitude\":\"north\"\x7d\x7d"

/-- Body of the IP service whose `ip` is an object with an own property `toString`. -/
def oddIpBody : String := "\x7b\"ip\":\x7b\"toString\":1\x7d\x7d"

/-- A body that is not JSON. -/
def htmlBody : String := "<html>Service Unavailable</html>"

/-- One pass window. -/
def pass (risetime duration : String) : JVal :=
  .obj [("risetime", .num risetime), ("duration", .num duration)]

/-- The six passes of `sixPassBody`. -/
def sixPasses : List JVal :=
  [pass "1000" "600", pass "2000" "610", pass "3000" "620", pass "4000" "630",
    pass "5000" "640", pass "6000" "650"]

/-- What `JSON.parse` gives on the sample bodies; it throws on everything else. -/
def sampleParse (body : String) : Option JVal :=
  if body = ipBody then some (.obj [("ip", .str "1.2.3.4")])
  else if body = coordsBody then
    some (.obj [("data", .obj [("latitude", .num "45"), ("longitude", .num "-73")])])
  else if body = passBody then some (.obj [("response", .arr [pass "1000" "600"])])
  else if body = noPassBody then some (.obj [("response", .arr [])])
  else if body = sixPassBody then some (.obj [("response", .arr sixPasses)])
  else if body = emptyObjectBody then some (.obj [])
  else if body = looseCoordsBody then some (.obj [("data", .obj [("latitude", .str "north")])])
  else if body = oddIpBody then some (.obj [("ip", .obj [("toString", .num "1")])])
  else none

/-- A transport that answers by URL: the three sample bodies at the three
URLs of the sample run, status 404 elsewhere. -/
def routed : Transport := fun _ url =>
  if url = "https://api.ipify.org/?format=json" then answer 200 ipBody
  else if url = "https://ipvigilante.com/1.2.3.4" then answer 200 coordsBody
  else if url = "http://api.open-notify.org/iss-pass.json?lat=45&lon=-73" then
    answer 200 passBody
  else answer 404 "Not Found"

/-! ## The shape of one stage

Whatever continuation a resolver is given, it does one of two things with it:
it calls it once, with arguments that depend only on the transport and the
parser, or it throws. -/

open Callback

/-- Shape of `fetchMyIP`: one request, then one call or one exception; an
error comes with the value `null`. -/
theorem fetchMyIP_shape (parse : String → Option JVal) (t : Transport) (hist : List String) :
    ∃ res : Except JsExc (JVal × JVal),
      (∀ e v, res = .ok (e, v) → truthy e = true → v = .null) ∧
      ∀ (k : JVal → JVal → Task) (w : World), w.requests = hist →
        fetchMyIP parse t k w =
          deliver res k ⟨hist ++ ["https://api.ipify.org/?format=json"], w.calls⟩ := by
  by_cases h1 : truthy (t hist "https://api.ipify.org/?format=json").error = true
  · refine ⟨.ok ((t hist "https://api.ipify.org/?format=json").error, .null), ?_, ?_⟩
    · intro e v h _; cases h; rfl
    · intro k w hw; subst hw
      simp [fetchMyIP, request, h1, deliver]
  · by_cases h2 : (t hist "https://api.ipify.org/?format=json").statusCode = 200
    · cases h3 : (jsonParse parse (t hist "https://api.ipify.org/?format=json").body
          >>= getProp "ip") with
      | error x =>
        refine ⟨.error x, ?_, ?_⟩
        · intro e v h; cases h
        · intro k w hw; subst hw
          simp [fetchMyIP, request, h1, h2, attempt, h3, deliver]
      | ok ip =>
        refine ⟨.ok ((t hist "https://api.ipify.org/?format=json").error, ip), ?_, ?_⟩
        · intro e v h he; cases h; exact absurd he h1
        · intro k w hw; subst hw
          simp [fetchMyIP, request, h1, h2, attempt, h3, deliver]
    · refine ⟨.ok (Error ("Status Code "
          ++ toString (t hist "https://api.ipify.org/?format=json").statusCode
          ++ " when fetching IP. Response: "
          ++ (t hist "https://api.ipify.org/?format=json").body), .null), ?_, ?_⟩
      · intro e v h _; cases h; rfl
      · intro k w hw; subst hw
        simp [fetchMyIP, request, h1, h2, deliver]

/-- Shape of `fetchCoordsByIP`: at most one request `us`, exactly one when
the callback is called. -/
theorem fetchCoordsByIP_shape (parse : String → Option JVal) (t : Transport) (ip : JVal)
    (hist : List String) :
    ∃ (res : Except JsExc (JVal × JVal)) (us : List String),
      (∀ e v, res = .ok (e, v) → truthy e = true → v = .null) ∧
      (∀ p, res = .ok p → us.length = 1) ∧ us.length ≤ 1 ∧
      ∀ (k : JVal → JVal → Task) (w : World), w.requests = hist →
        fetchCoordsByIP parse t ip k w = deliver res k ⟨hist ++ us, w.calls⟩ := by
  cases h0 : toStr ip with
  | error x =>
    refine ⟨.error x, [], ?_, ?_, by simp, ?_⟩
    · intro e v h; cases h
    · intro p h; cases h
    · intro k w hw; subst hw
      simp [fetchCoordsByIP, attempt, h0, deliver]
  | ok ipText =>
    generalize hr : t hist ("https://ipvigilante.com/" ++ ipText) = r
    by_cases h1 : truthy r.error = true
    · refine ⟨.ok (r.error, .null), ["https://ipvigilante.com/" ++ ipText], ?_, ?_, by simp, ?_⟩
      · intro e v h _; cases h; rfl
      · intro p _; rfl
      · intro k w hw; subst hw
        simp [fetchCoordsByIP, attempt, h0, request, hr, h1, deliver]
    · by_cases h2 : r.statusCode = 200
      · cases h3 : (jsonParse parse r.body >>= getProp "data" >>= getProp "latitude") with
        | error x =>
          refine ⟨.error x, ["https://ipvigilante.com/" ++ ipText], ?_, ?_, by simp, ?_⟩
          · intro e v h; cases h
          · intro p h; cases h
          · intro k w hw; subst hw
            simp [-bind_assoc, fetchCoordsByIP, attempt, h0, request, hr, h1, h2, h3, deliver]
        | ok la =>
          cases h4 : (jsonParse parse r.body >>= getProp "data" >>= getProp "longitude") with
          | error x =>
            refine ⟨.error x, ["https://ipvigilante.com/" ++ ipText], ?_, ?_, by simp, ?_⟩
            · intro e v h; cases h
            · intro p h; cases h
            · intro k w hw; subst hw
              simp [-bind_assoc, fetchCoordsByIP, attempt, h0, request, hr, h1, h2, h3, h4, deliver]
          | ok lo =>
            refine ⟨.ok (r.error, .obj [("latitude", la), ("longitude", lo)]), ["https://ipvigilante.com/" ++ ipText], ?_, ?_,
              by simp, ?_⟩
            · intro e v h he; cases h; exact absurd he h1
            · intro p _; rfl
            · intro k w hw; subst hw
              simp [-bind_assoc, fetchCoordsByIP, attempt, h0, request, hr, h1, h2, h3, h4, deliver]
      · refine ⟨.ok (Error ("Status Code " ++ toString r.statusCode
            ++ " when fetching coordinates for " ++ ipText ++ ". Response: " ++ r.body),
            .null), ["https://ipvigilante.com/" ++ ipText], ?_, ?_, by simp, ?_⟩
        · intro e v h _; cases h; rfl
        · intro p _; rfl
        · intro k w hw; subst hw
          simp [fetchCoordsByIP, attempt, h0, request, hr, h1, h2, deliver]

/-- Shape of `fetchISSFlyOverTimes`: at most one request `us`, exactly one
when the callback is called. -/
theorem fetchISSFlyOverTimes_shape (parse : String → Option JVal) (t : Transport)
    (coords : JVal) (hist : List String) :
    ∃ (res : Except JsExc (JVal × JVal)) (us : List String),
      (∀ e v, res = .ok (e, v) → truthy e = true → v = .null) ∧
      (∀ p, res = .ok p → us.length = 1) ∧ us.length ≤ 1 ∧
      ∀ (k : JVal → JVal → Task) (w : World), w.requests = hist →
        fetchISSFlyOverTimes parse t coords k w = deliver res k ⟨hist ++ us, w.calls⟩ := by
  cases ha : (getProp "latitude" coords >>= toStr) with
  | error x =>
    refine ⟨.error x, [], ?_, ?_, by simp, ?_⟩
    · intro e v h; cases h
    · intro p h; cases h
    · intro k w hw; subst hw
      simp [fetchISSFlyOverTimes, attempt, ha, deliver]
  | ok lat =>
  cases hb : (getProp "longitude" coords >>= toStr) with
  | error x =>
    refine ⟨.error x, [], ?_, ?_, by simp, ?_⟩
    · intro e v h; cases h
    · intro p h; cases h
    · intro k w hw; subst hw
      simp [fetchISSFlyOverTimes, attempt, ha, hb, deliver]
  | ok lon =>
    generalize hr : t hist ("http://api.open-notify.org/iss-pass.json?lat=" ++ lat
      ++ "&lon=" ++ lon) = r
    by_cases h1 : truthy r.error = true
    · refine ⟨.ok (r.error, .null), ["http://api.open-notify.org/iss-pass.json?lat=" ++ lat ++ "&lon=" ++ lon], ?_, ?_, by simp, ?_⟩
      · intro e v h _; cases h; rfl
      · intro p _; rfl
      · intro k w hw; subst hw
        simp [fetchISSFlyOverTimes, attempt, ha, hb, request, hr, h1, deliver]
    · by_cases h2 : r.statusCode = 200
      · cases h3 : (jsonParse parse r.body >>= getProp "response") with
        | error x =>
          refine ⟨.error x, ["http://api.open-notify.org/iss-pass.json?lat=" ++ lat ++ "&lon=" ++ lon], ?_, ?_, by simp, ?_⟩
          · intro e v h; cases h
          · intro p h; cases h
          · intro k w hw; subst hw
            simp [fetchISSFlyOverTimes, attempt, ha, hb, request, hr, h1, h2, h3, deliver]
        | ok times =>
          refine ⟨.ok (r.error, times), ["http://api.open-notify.org/iss-pass.json?lat=" ++ lat ++ "&lon=" ++ lon], ?_, ?_, by simp, ?_⟩
          · intro e v h he; cases h; exact absurd he h1
          · intro p _; rfl
          · intro k w hw; subst hw
            simp [fetchISSFlyOverTimes, attempt, ha, hb, request, hr, h1, h2, h3, deliver]
      · cases h3 : toStr coords with
        | error x =>
          refine ⟨.error x, ["http://api.open-notify.org/iss-pass.json?lat=" ++ lat ++ "&lon=" ++ lon], ?_, ?_, by simp, ?_⟩
          · intro e v h; cases h
          · intro p h; cases h
          · intro k w hw; subst hw
            simp [fetchISSFlyOverTimes, attempt, ha, hb, request, hr, h1, h2, h3, deliver]
        | ok coordsText =>
          refine ⟨.ok (Error ("Status Code " ++ toString r.statusCode
            ++ " when fetching times for " ++ coordsText ++ ". Response: " ++ r.body),
            .null), ["http://api.open-notify.org/iss-pass.json?lat=" ++ lat ++ "&lon=" ++ lon], ?_, ?_, by simp, ?_⟩
          · intro e v h _; cases h; rfl
          · intro p _; rfl
          · intro k w hw; subst hw
            simp [fetchISSFlyOverTimes, attempt, ha, hb, request, hr, h1, h2, h3, deliver]

/-! ## The claims -/

/-- Stages that report their error. A stage reports an error when it calls
its own callback with a truthy first argument `e` (a transport error or a
status other than 200). If that stage is `fetchMyIP`, the orchestrator has made
exactly 1 request; if it is `fetchCoordsByIP` (after `fetchMyIP` succeeded),
exactly 2; if it is `fetchISSFlyOverTimes` (after the first two succeeded),
exactly 3. In each case no later stage is started and the caller's callback
receives `(e, null)` once, with that same value `e`. A stage that fails by
throwing is not covered. -/
theorem first_failure_aborts_and_is_propagated (parse : String → Option JVal) (t : Transport)
    (e : JVal) (he : truthy e = true) :
    (∀ v w1,
      fetchMyIP parse t record World.start = .finished w1 → w1.calls = [(e, v)] →
      ∃ w, nextISSTimesForMyLocation parse t record World.start = .finished w ∧
        w.requests = w1.requests ∧ w.requests.length = 1 ∧ w.calls = [(e, .null)]) ∧
    (∀ e1 ip w1 v w2,
      fetchMyIP parse t record World.start = .finished w1 → w1.calls = [(e1, ip)] →
      truthy e1 = false →
      fetchCoordsByIP parse t ip record ⟨w1.requests, []⟩ = .finished w2 →
      w2.calls = [(e, v)] →
      ∃ w, nextISSTimesForMyLocation parse t record World.start = .finished w ∧
        w.requests = w2.requests ∧ w.requests.length = 2 ∧ w.calls = [(e, .null)]) ∧
    (∀ e1 ip w1 e2 coords w2 v w3,
      fetchMyIP parse t record World.start = .finished w1 → w1.calls = [(e1, ip)] →
      truthy e1 = false →
      fetchCoordsByIP parse t ip record ⟨w1.requests, []⟩ = .finished w2 →
      w2.calls = [(e2, coords)] → truthy e2 = false →
      fetchISSFlyOverTimes parse t coords record ⟨w2.requests, []⟩ = .finished w3 →
      w3.calls = [(e, v)] →
      ∃ w, nextISSTimesForMyLocation parse t record World.start = .finished w ∧
        w.requests = w3.requests ∧ w.requests.length = 3 ∧ w.calls = [(e, .null)]) := by
  obtain ⟨res1, -, s1⟩ := fetchMyIP_shape parse t []
  refine ⟨?_, ?_, ?_⟩
  · intro v w1 h1 hc
    rw [s1 record World.start rfl] at h1
    unfold nextISSTimesForMyLocation
    rw [s1 _ World.start rfl]
    rcases res1 with x | ⟨e', v'⟩
    · simp [deliver] at h1
    · simp only [deliver, record, World.start, Outcome.finished.injEq] at h1
      subst h1
      simp at hc
      obtain ⟨rfl, rfl⟩ := hc
      simp [deliver, he, record, World.start]
  · intro e1 ip w1 v w2 h1 hc1 hf1 h2 hc2
    rw [s1 record World.start rfl] at h1
    unfold nextISSTimesForMyLocation
    rw [s1 _ World.start rfl]
    rcases res1 with x | ⟨e', v'⟩
    · simp [deliver] at h1
    · simp only [deliver, record, World.start, Outcome.finished.injEq] at h1
      subst h1
      simp at hc1
      obtain ⟨rfl, rfl⟩ := hc1
      obtain ⟨res2, us2, -, l2, -, s2⟩ := fetchCoordsByIP_shape parse t v'
        ([] ++ ["https://api.ipify.org/?format=json"])
      simp only [deliver, hf1, World.start]
      rw [s2 record _ rfl] at h2
      simp only [Bool.false_eq_true, if_false]
      rw [s2 _ _ rfl]
      rcases res2 with x | ⟨eb, vb⟩
      · simp [deliver] at h2
      · have hl := l2 _ rfl
        simp only [deliver, record, Outcome.finished.injEq] at h2
        subst h2
        simp at hc2
        obtain ⟨rfl, rfl⟩ := hc2
        simp [deliver, he, record, hl]
  · intro e1 ip w1 e2 coords w2 v w3 h1 hc1 hf1 h2 hc2 hf2 h3 hc3
    rw [s1 record World.start rfl] at h1
    unfold nextISSTimesForMyLocation
    rw [s1 _ World.start rfl]
    rcases res1 with x | ⟨e', v'⟩
    · simp [deliver] at h1
    · simp only [deliver, record, World.start, Outcome.finished.injEq] at h1
      subst h1
      simp at hc1
      obtain ⟨rfl, rfl⟩ := hc1
      obtain ⟨res2, us2, -, l2, -, s2⟩ := fetchCoordsByIP_shape parse t v'
        ([] ++ ["https://api.ipify.org/?format=json"])
      simp only [deliver, hf1, World.start]
      rw [s2 record _ rfl] at h2
      simp only [Bool.false_eq_true, if_false]
      rw [s2 _ _ rfl]
      rcases res2 with x | ⟨eb, vb⟩
      · simp [deliver] at h2
      · have hl := l2 _ rfl
        simp only [deliver, record, Outcome.finished.injEq] at h2
        subst h2
        simp at hc2
        obtain ⟨rfl, rfl⟩ := hc2
        obtain ⟨res3, us3, -, l3, -, s3⟩ := fetchISSFlyOverTimes_shape parse t vb
          ([] ++ ["https://api.ipify.org/?format=json"] ++ us2)
        simp only [deliver, hf2]
        rw [s3 record _ rfl] at h3
        simp only [Bool.false_eq_true, if_false]
        rw [s3 _ _ rfl]
        rcases res3 with x | ⟨e3, v3⟩
        · simp [deliver] at h3
        · have hl3 := l3 _ rfl
          simp only [deliver, record, Outcome.finished.injEq] at h3
          subst h3
          simp at hc3
          obtain ⟨rfl, rfl⟩ := hc3
          simp [deliver, he, record, hl, hl3]
/-- C9. With no transport error, status 200 and a body that parses to an
object whose field `ip` is the string `s`, `fetchMyIP` calls its callback once
with `(null, s)`: the string is handed on as it is. -/
theorem fetchMyIP_hands_back_the_ip_string (parse : String → Option JVal) (t : Transport)
    (w : World) (fields : List (String × JVal)) (s : String)
    (herr : (t w.requests "https://api.ipify.org/?format=json").error = .null)
    (hstatus : (t w.requests "https://api.ipify.org/?format=json").statusCode = 200)
    (hparse : parse (t w.requests "https://api.ipify.org/?format=json").body
      = some (.obj fields))
    (hip : lookupField "ip" fields = some (.str s)) :
    fetchMyIP parse t record w
      = .finished ⟨w.requests ++ ["https://api.ipify.org/?format=json"],
          w.calls ++ [(.null, .str s)]⟩ := by
  simp [fetchMyIP, request, attempt, record, herr, hstatus, hparse, hip, truthy, jsonParse,
    getProp, bind, Except.bind]

/-- C2. When the three stages answer with status 200 and bodies of the
expected form (an object with the string `ip`; an object with `data` holding
`latitude` and `longitude` that render as `L` and `G`; an object whose
`response` is the array `xs`), the orchestrator makes the three requests and
calls the caller's callback once with `(null, xs)`: the array as it is, the
empty array included. -/
theorem all_stages_ok_delivers_the_response_array (parse : String → Option JVal)
    (t : Transport) (f1 f2 fd f3 : List (String × JVal)) (s L G : String) (la lo : JVal)
    (xs : List JVal)
    (herr1 : (t [] "https://api.ipify.org/?format=json").error = .null)
    (hst1 : (t [] "https://api.ipify.org/?format=json").statusCode = 200)
    (hp1 : parse (t [] "https://api.ipify.org/?format=json").body = some (.obj f1))
    (hip : lookupField "ip" f1 = some (.str s))
    (herr2 : (t ["https://api.ipify.org/?format=json"] ("https://ipvigilante.com/" ++ s)).error
      = .null)
    (hst2 : (t ["https://api.ipify.org/?format=json"]
      ("https://ipvigilante.com/" ++ s)).statusCode = 200)
    (hp2 : parse (t ["https://api.ipify.org/?format=json"]
      ("https://ipvigilante.com/" ++ s)).body = some (.obj f2))
    (hdata : lookupField "data" f2 = some (.obj fd))
    (hla : lookupField "latitude" fd = some la) (hlo : lookupField "longitude" fd = some lo)
    (hL : toStr la = .ok L) (hG : toStr lo = .ok G)
    (herr3 : (t ["https://api.ipify.org/?format=json", "https://ipvigilante.com/" ++ s]
      ("http://api.open-notify.org/iss-pass.json?lat=" ++ L ++ "&lon=" ++ G)).error = .null)
    (hst3 : (t ["https://api.ipify.org/?format=json", "https://ipvigilante.com/" ++ s]
      ("http://api.open-notify.org/iss-pass.json?lat=" ++ L ++ "&lon=" ++ G)).statusCode
      = 200)
    (hp3 : parse (t ["https://api.ipify.org/?format=json", "https://ipvigilante.com/" ++ s]
      ("http://api.open-notify.org/iss-pass.json?lat=" ++ L ++ "&lon=" ++ G)).body
      = some (.obj f3))
    (hresp : lookupField "response" f3 = some (.arr xs)) :
    nextISSTimesForMyLocation parse t record World.start
      = .finished ⟨["https://api.ipify.org/?format=json", "https://ipvigilante.com/" ++ s,
          "http://api.open-notify.org/iss-pass.json?lat=" ++ L ++ "&lon=" ++ G],
          [(.null, .arr xs)]⟩ := by
  simp [nextISSTimesForMyLocation, fetchMyIP, fetchCoordsByIP, fetchISSFlyOverTimes, request,
    attempt, record, World.start, truthy, jsonParse, getProp, lookupField, toStr, bind,
    Except.bind, herr1, hst1, hp1, hip, herr2, hst2, hp2, hdata, hla, hlo, hL, hG, herr3, hst3,
    hp3, hresp]

/-- C3. With no transport error, a status `s` other than 200 and a body `b`,
each of the three resolvers, once its request is made, calls its callback once
with `(Error(msg), null)`: the error is not `null`, and its message `msg`
contains the decimal rendering of `s` and contains `b`. For `fetchCoordsByIP`
the address is any value that renders; for `fetchISSFlyOverTimes` the
coordinates are any object with the two fields, both rendering. -/
theorem non200_status_is_reported_with_code_and_body (parse : String → Option JVal)
    (t : Transport) (w : World) (s : Nat) (b : String) (hs : s ≠ 200) :
    (truthy (t w.requests "https://api.ipify.org/?format=json").error = false →
      (t w.requests "https://api.ipify.org/?format=json").statusCode = s →
      (t w.requests "https://api.ipify.org/?format=json").body = b →
      ∃ msg, fetchMyIP parse t record w
          = .finished ⟨w.requests ++ ["https://api.ipify.org/?format=json"],
              w.calls ++ [(Error msg, .null)]⟩ ∧
        Error msg ≠ .null ∧ (Error msg).message = some msg ∧
        (toString s).data <:+: msg.data ∧ b.data <:+: msg.data) ∧
    (∀ ip ipText, toStr ip = .ok ipText →
      truthy (t w.requests ("https://ipvigilante.com/" ++ ipText)).error = false →
      (t w.requests ("https://ipvigilante.com/" ++ ipText)).statusCode = s →
      (t w.requests ("https://ipvigilante.com/" ++ ipText)).body = b →
      ∃ msg, fetchCoordsByIP parse t ip record w
          = .finished ⟨w.requests ++ ["https://ipvigilante.com/" ++ ipText],
              w.calls ++ [(Error msg, .null)]⟩ ∧
        Error msg ≠ .null ∧ (Error msg).message = some msg ∧
        (toString s).data <:+: msg.data ∧ b.data <:+: msg.data) ∧
    (∀ la lo L G, toStr la = .ok L → toStr lo = .ok G →
      truthy (t w.requests
        ("http://api.open-notify.org/iss-pass.json?lat=" ++ L ++ "&lon=" ++ G)).error = false →
      (t w.requests
        ("http://api.open-notify.org/iss-pass.json?lat=" ++ L ++ "&lon=" ++ G)).statusCode = s →
      (t w.requests
        ("http://api.open-notify.org/iss-pass.json?lat=" ++ L ++ "&lon=" ++ G)).body = b →
      ∃ msg, fetchISSFlyOverTimes parse t (.obj [("latitude", la), ("longitude", lo)]) record w
          = .finished ⟨w.requests
              ++ ["http://api.open-notify.org/iss-pass.json?lat=" ++ L ++ "&lon=" ++ G],
              w.calls ++ [(Error msg, .null)]⟩ ∧
        Error msg ≠ .null ∧ (Error msg).message = some msg ∧
        (toString s).data <:+: msg.data ∧ b.data <:+: msg.data) := by
  refine ⟨?_, ?_, ?_⟩
  · intro herr hst hb
    refine ⟨"Status Code " ++ toString s ++ " when fetching IP. Response: " ++ b, ?_,
      by simp [Error], rfl,
      ⟨"Status Code ".data, (" when fetching IP. Response: " ++ b).data,
        by simp [String.data_append]⟩,
      ⟨("Status Code " ++ toString s ++ " when fetching IP. Response: ").data, [],
        by simp [String.data_append]⟩⟩
    simp [fetchMyIP, request, record, herr, hst, hb, hs]
  · intro ip ipText hip herr hst hb
    refine ⟨"Status Code " ++ toString s ++ " when fetching coordinates for " ++ ipText
        ++ ". Response: " ++ b, ?_, by simp [Error], rfl,
      ⟨"Status Code ".data,
        (" when fetching coordinates for " ++ ipText ++ ". Response: " ++ b).data,
        by simp [String.data_append]⟩,
      ⟨("Status Code " ++ toString s ++ " when fetching coordinates for " ++ ipText
        ++ ". Response: ").data, [], by simp [String.data_append]⟩⟩
    simp [fetchCoordsByIP, attempt, request, record, hip, herr, hst, hb, hs]
  · intro la lo L G hL hG herr hst hb
    refine ⟨"Status Code " ++ toString s ++ " when fetching times for " ++ "[object Object]"
        ++ ". Response: " ++ b, ?_, by simp [Error], rfl,
      ⟨"Status Code ".data,
        (" when fetching times for " ++ "[object Object]" ++ ". Response: " ++ b).data,
        by simp [String.data_append]⟩,
      ⟨("Status Code " ++ toString s ++ " when fetching times for " ++ "[object Object]"
        ++ ". Response: ").data, [], by simp [String.data_append]⟩⟩
    simp [fetchISSFlyOverTimes, attempt, request, record, getProp, lookupField, toStr, bind,
      Except.bind, hL, hG, herr, hst, hb, hs]

/-- The requests after `attempt` are those of its continuation. -/
theorem attempt_requests {α : Type} (x : Except JsExc α) (rest : α → Task) (w : World)
    (R : List String) (hw : w.requests = R) (h : ∀ a, (rest a w).world.requests = R) :
    (attempt x rest w).world.requests = R := by
  cases x with
  | error e => simpa [attempt, Outcome.world] using hw
  | ok a => simpa [attempt] using h a

/-- C8. The first request of the orchestrator is always
`https://api.ipify.org/?format=json`. In a run where the first answer is
status 200 with `ip` the string `s`, and the second answer is status 200 with
`data.latitude` and `data.longitude` rendering as `L` and `G`, the requests are
exactly that URL, then `https://ipvigilante.com/` followed by `s`, then
`http://api.open-notify.org/iss-pass.json?lat=` followed by `L`, `&lon=` and
`G`. -/
theorem each_stage_output_is_the_next_request (parse : String → Option JVal) (t : Transport) :
    (∃ rest, (nextISSTimesForMyLocation parse t record World.start).world.requests
      = "https://api.ipify.org/?format=json" :: rest) ∧
    (∀ f1 s f2 fd la lo L G,
      truthy (t [] "https://api.ipify.org/?format=json").error = false →
      (t [] "https://api.ipify.org/?format=json").statusCode = 200 →
      parse (t [] "https://api.ipify.org/?format=json").body = some (.obj f1) →
      lookupField "ip" f1 = some (.str s) →
      truthy (t ["https://api.ipify.org/?format=json"]
        ("https://ipvigilante.com/" ++ s)).error = false →
      (t ["https://api.ipify.org/?format=json"]
        ("https://ipvigilante.com/" ++ s)).statusCode = 200 →
      parse (t ["https://api.ipify.org/?format=json"]
        ("https://ipvigilante.com/" ++ s)).body = some (.obj f2) →
      lookupField "data" f2 = some (.obj fd) →
      lookupField "latitude" fd = some la → lookupField "longitude" fd = some lo →
      toStr la = .ok L → toStr lo = .ok G →
      (nextISSTimesForMyLocation parse t record World.start).world.requests
        = ["https://api.ipify.org/?format=json", "https://ipvigilante.com/" ++ s,
            "http://api.open-notify.org/iss-pass.json?lat=" ++ L ++ "&lon=" ++ G]) := by
  refine ⟨?_, ?_⟩
  · obtain ⟨res1, -, s1⟩ := fetchMyIP_shape parse t []
    unfold nextISSTimesForMyLocation
    rw [s1 _ World.start rfl]
    rcases res1 with x | ⟨e, v⟩
    · exact ⟨[], rfl⟩
    · simp only [deliver, List.nil_append]
      split
      · exact ⟨[], rfl⟩
      · obtain ⟨res2, us2, -, -, -, s2⟩ := fetchCoordsByIP_shape parse t v
          ["https://api.ipify.org/?format=json"]
        rw [s2 _ _ rfl]
        rcases res2 with x | ⟨e2, v2⟩
        · exact ⟨us2, rfl⟩
        · simp only [deliver]
          split
          · exact ⟨us2, rfl⟩
          · obtain ⟨res3, us3, -, -, -, s3⟩ := fetchISSFlyOverTimes_shape parse t v2
              (["https://api.ipify.org/?format=json"] ++ us2)
            rw [s3 _ _ rfl]
            rcases res3 with x | ⟨e3, v3⟩
            · exact ⟨us2 ++ us3, by simp [deliver, Outcome.world]⟩
            · simp only [deliver]
              split <;> exact ⟨us2 ++ us3, by simp [record, Outcome.world]⟩
  · intro f1 s f2 fd la lo L G herr1 hst1 hp1 hip herr2 hst2 hp2 hdata hla hlo hL hG
    simp only [nextISSTimesForMyLocation, fetchMyIP, fetchCoordsByIP, fetchISSFlyOverTimes,
      request, attempt, World.start, jsonParse, getProp, lookupField, toStr, bind, Except.bind,
      herr1, hst1, hp1, hip, herr2, hst2, hp2, hdata, hla, hlo, hL, hG, List.nil_append,
      Option.getD_some, ne_eq, not_true_eq_false, if_false, Bool.false_eq_true,
      List.cons_append, reduceCtorEq, String.reduceEq]
    simp only [if_true, Option.getD_some, hL, hG]
    generalize t ["https://api.ipify.org/?format=json", "https://ipvigilante.com/" ++ s]
      ("http://api.open-notify.org/iss-pass.json?lat=" ++ L ++ "&lon=" ++ G) = r
    by_cases h1 : truthy r.error = true
    · simp [h1, record, Outcome.world]
    · by_cases h2 : r.statusCode = 200
      · simp only [h1, h2, if_false, not_true_eq_false, Bool.false_eq_true, reduceIte]
        apply attempt_requests _ _ _ _ rfl
        intro a
        simp [record, Outcome.world, truthy, Error]
      · simp only [h1, h2, if_false, not_false_eq_true, if_true, Bool.false_eq_true, reduceIte]
        apply attempt_requests _ _ _ _ rfl
        intro a
        simp [record, Outcome.world, truthy, Error]

/-- An `Error` object is truthy. -/
theorem truthy_Error (msg : String) : truthy (Error msg) = true := rfl

/-- The two pipelines run in lock-step when no error-free answer has a 2xx
status other than 200. -/
theorem pipelines_lockstep (parse : String → Option JVal) (t : Transport)
    (hst : ∀ hist url, truthy (t hist url).error = false →
      (t hist url).statusCode = 200 ∨ is2xx (t hist url).statusCode = false) :
    agree (Callback.nextISSTimesForMyLocation parse t record World.start)
      (Promised.nextISSTimesForMyLocation parse t World.start) := by
  have h200 : is2xx 200 = true := by decide
  simp only [Callback.nextISSTimesForMyLocation, Promised.nextISSTimesForMyLocation,
    Callback.fetchMyIP, Promised.fetchMyIP, request, requestPromise, Promise.andThen,
    World.start, List.nil_append]
  have hs1 := hst [] "https://api.ipify.org/?format=json"
  generalize t [] "https://api.ipify.org/?format=json" = r1 at hs1 ⊢
  by_cases e1 : truthy r1.error = true
  · simp [e1, record, agree]
  · by_cases c1 : r1.statusCode = 200
    · simp only [e1, c1, h200, Bool.false_eq_true, reduceIte, ne_eq, not_true_eq_false,
        Bool.not_true, Promised.fetchCoordsByIP, Callback.fetchCoordsByIP]
      generalize (jsonParse parse r1.body >>= getProp "ip") = x1
      rcases x1 with x | ip
      · simp [attempt, attemptP, agree]
      · simp only [attempt, attemptP]
        generalize toStr ip = y1
        rcases y1 with x | ipText
        · simp [agree]
        · simp only [request, requestPromise, List.singleton_append]
          have hs2 := hst ["https://api.ipify.org/?format=json"]
            ("https://ipvigilante.com/" ++ ipText)
          generalize t ["https://api.ipify.org/?format=json"]
            ("https://ipvigilante.com/" ++ ipText) = r2 at hs2 ⊢
          by_cases e2 : truthy r2.error = true
          · simp [e2, record, agree]
          · by_cases c2 : r2.statusCode = 200
            · simp only [e2, c2, h200, Bool.false_eq_true, reduceIte, ne_eq, not_true_eq_false,
                Bool.not_true, Promised.fetchISSFlyOverTimes, Callback.fetchISSFlyOverTimes]
              generalize (jsonParse parse r2.body >>= getProp "data" >>= getProp "latitude")
                = x2
              rcases x2 with x | la
              · simp [attempt, attemptP, agree]
              · simp only [attempt, attemptP]
                generalize (jsonParse parse r2.body >>= getProp "data"
                  >>= getProp "longitude") = x3
                rcases x3 with x | lo
                · simp [agree]
                · simp only []
                  generalize (getProp "latitude" (JVal.obj [("latitude", la),
                    ("longitude", lo)]) >>= toStr) = y2
                  rcases y2 with x | lat
                  · simp [agree]
                  · simp only []
                    generalize (getProp "longitude" (JVal.obj [("latitude", la),
                      ("longitude", lo)]) >>= toStr) = y3
                    rcases y3 with x | lon
                    · simp [agree]
                    · simp only [request, requestPromise, List.cons_append, List.nil_append]
                      have hs3 := hst ["https://api.ipify.org/?format=json",
                        "https://ipvigilante.com/" ++ ipText]
                        ("http://api.open-notify.org/iss-pass.json?lat=" ++ lat ++ "&lon="
                          ++ lon)
                      generalize t ["https://api.ipify.org/?format=json",
                        "https://ipvigilante.com/" ++ ipText]
                        ("http://api.open-notify.org/iss-pass.json?lat=" ++ lat ++ "&lon="
                          ++ lon) = r3 at hs3 ⊢
                      by_cases e3 : truthy r3.error = true
                      · simp [e3, record, agree]
                      · by_cases c3 : r3.statusCode = 200
                        · simp only [e3, c3, h200, Bool.false_eq_true, reduceIte, ne_eq,
                            not_true_eq_false, Bool.not_true]
                          generalize (jsonParse parse r3.body >>= getProp "response") = x4
                          rcases x4 with x | times
                          · simp [attempt, attemptP, agree]
                          · simp [attempt, attemptP, agree, record, Promise.value]
                        · have n3 : is2xx r3.statusCode = false := by
                            rcases hs3 (by simpa using e3) with h | h
                            · exact absurd h c3
                            · exact h
                          have hc : toStr (JVal.obj [("latitude", la), ("longitude", lo)])
                              = .ok "[object Object]" := by
                            simp [toStr, lookupField]
                          simp [e3, c3, n3, record, agree, truthy_Error, attempt, hc]
            · have n2 : is2xx r2.statusCode = false := by
                rcases hs2 (by simpa using e2) with h | h
                · exact absurd h c2
                · exact h
              simp [e2, c2, n2, record, agree, truthy_Error]
    · have n1 : is2xx r1.statusCode = false := by
        rcases hs1 (by simpa using e1) with h | h
        · exact absurd h c1
        · exact h
      simp [e1, c1, n1, record, agree, truthy_Error]

/-- Where the two pipelines do agree. For a transport that never answers an
error-free request with a 2xx status other than 200: the promise orchestrator
resolves with a list exactly when the callback orchestrator calls back with
`(null, list)`; whenever the callback orchestrator finishes, the promise
orchestrator rejects if the callback received an error; and in every run the
two request the same URLs in the same order. -/
theorem pipelines_agree_when_no_other_2xx (parse : String → Option JVal) (t : Transport)
    (hst : ∀ hist url, truthy (t hist url).error = false →
      (t hist url).statusCode = 200 ∨ is2xx (t hist url).statusCode = false) :
    (∀ times,
      (∃ w, Callback.nextISSTimesForMyLocation parse t record World.start = .finished w ∧
        w.calls = [(.null, times)]) ↔
      (∃ wp, Promised.nextISSTimesForMyLocation parse t World.start = .resolved times wp)) ∧
    (∀ w, Callback.nextISSTimesForMyLocation parse t record World.start = .finished w →
      (Promised.nextISSTimesForMyLocation parse t World.start).world.requests = w.requests ∧
      ((∃ e, truthy e = true ∧ w.calls = [(e, .null)]) →
        ∃ r wp, Promised.nextISSTimesForMyLocation parse t World.start = .rejected r wp)) ∧
    (Promised.nextISSTimesForMyLocation parse t World.start).world.requests
      = (Callback.nextISSTimesForMyLocation parse t record World.start).world.requests := by
  have h := pipelines_lockstep parse t hst
  generalize Callback.nextISSTimesForMyLocation parse t record World.start = c at h ⊢
  generalize Promised.nextISSTimesForMyLocation parse t World.start = p at h ⊢
  rcases c with w | ⟨x, w⟩ <;> rcases p with ⟨v, wp⟩ | ⟨r, wp⟩
  · simp only [agree] at h
    refine ⟨fun times => ⟨?_, ?_⟩, ?_, ?_⟩
    · rintro ⟨w', hw', hc⟩
      cases hw'
      rw [h.2] at hc
      simp at hc
      subst hc
      exact ⟨wp, rfl⟩
    · rintro ⟨wp', hp⟩
      cases hp
      exact ⟨w, rfl, h.2⟩
    · intro w' hw'
      cases hw'
      refine ⟨h.1, ?_⟩
      rintro ⟨e, he, hc⟩
      rw [h.2] at hc
      simp at hc
      rw [← hc.1] at he
      simp [truthy] at he
    · exact h.1
  · simp only [agree] at h
    obtain ⟨hreq, ⟨e, he, hc⟩, -⟩ := h
    refine ⟨fun times => ⟨?_, ?_⟩, ?_, ?_⟩
    · rintro ⟨w', hw', hc'⟩
      cases hw'
      rw [hc] at hc'
      simp at hc'
      rw [hc'.1] at he
      simp [truthy] at he
    · rintro ⟨wp', hp⟩
      cases hp
    · intro w' hw'
      cases hw'
      exact ⟨hreq, fun _ => ⟨r, wp, rfl⟩⟩
    · exact hreq
  · simp [agree] at h
  · simp only [agree] at h
    refine ⟨fun times => ⟨?_, ?_⟩, ?_, ?_⟩
    · rintro ⟨w', hw', -⟩
      cases hw'
    · rintro ⟨wp', hp⟩
      cases hp
    · intro w' hw'
      cases hw'
    · exact h.1

/-- The callback orchestrator calls the caller's callback at most once:
a run that finishes has made one call, `(e, null)` with `e` truthy or
`(null, times)`; a run that ends in an uncaught exception has made none. -/
theorem orchestrator_calls_back_at_most_once (parse : String → Option JVal) (t : Transport) :
    (∃ w, Callback.nextISSTimesForMyLocation parse t record World.start = .finished w ∧
      ((∃ e, truthy e = true ∧ w.calls = [(e, .null)]) ∨ ∃ times, w.calls = [(.null, times)])) ∨
    (∃ x w, Callback.nextISSTimesForMyLocation parse t record World.start = .uncaught x w ∧
      w.calls = []) := by
  obtain ⟨res1, -, s1⟩ := fetchMyIP_shape parse t []
  unfold nextISSTimesForMyLocation
  rw [s1 _ World.start rfl]
  rcases res1 with x | ⟨e, v⟩
  · exact Or.inr ⟨x, _, rfl, rfl⟩
  · simp only [deliver, List.nil_append, World.start]
    by_cases he : truthy e = true
    · simp only [he, reduceIte]
      exact Or.inl ⟨_, rfl, Or.inl ⟨e, he, rfl⟩⟩
    · simp only [he, Bool.false_eq_true, reduceIte]
      obtain ⟨res2, us2, -, -, -, s2⟩ := fetchCoordsByIP_shape parse t v
        ["https://api.ipify.org/?format=json"]
      rw [s2 _ _ rfl]
      rcases res2 with x | ⟨e2, v2⟩
      · exact Or.inr ⟨x, _, rfl, rfl⟩
      · simp only [deliver]
        by_cases he2 : truthy e2 = true
        · simp only [he2, reduceIte]
          exact Or.inl ⟨_, rfl, Or.inl ⟨e2, he2, rfl⟩⟩
        · simp only [he2, Bool.false_eq_true, reduceIte]
          obtain ⟨res3, us3, -, -, -, s3⟩ := fetchISSFlyOverTimes_shape parse t v2
            (["https://api.ipify.org/?format=json"] ++ us2)
          rw [s3 _ _ rfl]
          rcases res3 with x | ⟨e3, v3⟩
          · exact Or.inr ⟨x, _, rfl, rfl⟩
          · simp only [deliver]
            by_cases he3 : truthy e3 = true
            · simp only [he3, reduceIte]
              exact Or.inl ⟨_, rfl, Or.inl ⟨e3, he3, rfl⟩⟩
            · simp only [he3, Bool.false_eq_true, reduceIte]
              exact Or.inl ⟨_, rfl, Or.inr ⟨v3, rfl⟩⟩

/-- C5, amended. The resolvers do not check the schema of a body. For a
status-200 body that parses to an object without `ip`, `fetchMyIP` calls back
with `(null, undefined)`. For a status-200 body that parses to an object whose
`data` is an object, `fetchCoordsByIP` calls back with `null` and the
coordinates made of `data.latitude` and `data.longitude` as they are:
`undefined` when absent, unconverted when not a number. -/
theorem schema_violations_are_handed_on_as_success (parse : String → Option JVal)
    (t : Transport) (w : World) :
    (∀ fields,
      (t w.requests "https://api.ipify.org/?format=json").error = .null →
      (t w.requests "https://api.ipify.org/?format=json").statusCode = 200 →
      parse (t w.requests "https://api.ipify.org/?format=json").body = some (.obj fields) →
      lookupField "ip" fields = none →
      fetchMyIP parse t record w
        = .finished ⟨w.requests ++ ["https://api.ipify.org/?format=json"],
            w.calls ++ [(.null, .undefined)]⟩) ∧
    (∀ ip ipText fields fd, toStr ip = .ok ipText →
      (t w.requests ("https://ipvigilante.com/" ++ ipText)).error = .null →
      (t w.requests ("https://ipvigilante.com/" ++ ipText)).statusCode = 200 →
      parse (t w.requests ("https://ipvigilante.com/" ++ ipText)).body = some (.obj fields) →
      lookupField "data" fields = some (.obj fd) →
      fetchCoordsByIP parse t ip record w
        = .finished ⟨w.requests ++ ["https://ipvigilante.com/" ++ ipText],
            w.calls ++ [(.null, .obj [
              ("latitude", (lookupField "latitude" fd).getD .undefined),
              ("longitude", (lookupField "longitude" fd).getD .undefined)])]⟩) := by
  refine ⟨?_, ?_⟩
  · intro fields herr hst hp hip
    simp [fetchMyIP, request, attempt, record, herr, hst, hp, hip, truthy, jsonParse,
      getProp, bind, Except.bind]
  · intro ip ipText fields fd hs herr hst hp hdata
    simp [fetchCoordsByIP, request, attempt, record, hs, herr, hst, hp, hdata, truthy,
      jsonParse, getProp, bind, Except.bind]

/-- C5, counterexample. The body is the empty object: it is valid JSON and
has no `ip`. `fetchMyIP` calls back with `(null, undefined)`, a success with an
absent address, and no error. -/
theorem missing_ip_is_reported_as_success :
    sampleParse emptyObjectBody = some (.obj []) ∧
    lookupField "ip" [] = none ∧
    fetchMyIP sampleParse (scripted [answer 200 emptyObjectBody]) record World.start
      = .finished ⟨["https://api.ipify.org/?format=json"], [(.null, .undefined)]⟩ ∧
    truthy .null = false := by
  refine ⟨rfl, rfl, rfl, rfl⟩

/-- C5, witness. The empty object for `fetchMyIP`; for `fetchCoordsByIP` a
`data` with the latitude `"north"` and no longitude. -/
theorem schema_violations_witness :
    fetchMyIP sampleParse (scripted [answer 200 emptyObjectBody]) record World.start
      = .finished ⟨[] ++ ["https://api.ipify.org/?format=json"],
          [] ++ [(.null, .undefined)]⟩ ∧
    fetchCoordsByIP sampleParse (scripted [answer 200 looseCoordsBody]) (.str "1.2.3.4") record
        World.start
      = .finished ⟨[] ++ ["https://ipvigilante.com/" ++ "1.2.3.4"],
          [] ++ [(.null, .obj [
            ("latitude", (lookupField "latitude" [("latitude", .str "north")]).getD .undefined),
            ("longitude",
              (lookupField "longitude" [("latitude", .str "north")]).getD .undefined)])]⟩ :=
  ⟨(schema_violations_are_handed_on_as_success sampleParse
      (scripted [answer 200 emptyObjectBody]) World.start).1 [] rfl rfl rfl rfl,
   (schema_violations_are_handed_on_as_success sampleParse
      (scripted [answer 200 looseCoordsBody]) World.start).2 (.str "1.2.3.4") "1.2.3.4"
      [("data", .obj [("latitude", .str "north")])] [("latitude", .str "north")]
      rfl rfl rfl rfl rfl⟩

/-- C4. A status-200 body that is not JSON, at each of the three callback
resolvers: `JSON.parse` throws inside the `request` callback, the exception
escapes and the resolver's callback receives no call. On the same first answer
the promise orchestrator rejects with that exception. -/
theorem malformed_json_escapes_the_callback_resolvers :
    sampleParse htmlBody = none ∧
    fetchMyIP sampleParse (scripted [answer 200 htmlBody]) record World.start
      = .uncaught .syntaxError ⟨["https://api.ipify.org/?format=json"], []⟩ ∧
    fetchCoordsByIP sampleParse (scripted [answer 200 htmlBody]) (.str "1.2.3.4") record
        World.start
      = .uncaught .syntaxError ⟨["https://ipvigilante.com/1.2.3.4"], []⟩ ∧
    fetchISSFlyOverTimes sampleParse (scripted [answer 200 htmlBody])
        (.obj [("latitude", .num "45"), ("longitude", .num "-73")]) record World.start
      = .uncaught .syntaxError ⟨["http://api.open-notify.org/iss-pass.json?lat=45&lon=-73"], []⟩ ∧
    Promised.nextISSTimesForMyLocation sampleParse (scripted [answer 200 htmlBody]) World.start
      = .rejected (.thrown .syntaxError) ⟨["https://api.ipify.org/?format=json"], []⟩ := by
  refine ⟨rfl, rfl, rfl, rfl, rfl⟩

/-- C6. The third answer is status 200 with a body that is not JSON: the
callback orchestrator ends in an uncaught `SyntaxError` after three requests
and the caller's callback has received no call. -/
theorem malformed_json_leaves_the_caller_without_a_call :
    nextISSTimesForMyLocation sampleParse
        (scripted [answer 200 ipBody, answer 200 coordsBody, answer 200 htmlBody]) record
        World.start
      = .uncaught .syntaxError ⟨["https://api.ipify.org/?format=json",
          "https://ipvigilante.com/1.2.3.4",
          "http://api.open-notify.org/iss-pass.json?lat=45&lon=-73"], []⟩ ∧
    (nextISSTimesForMyLocation sampleParse
        (scripted [answer 200 ipBody, answer 200 coordsBody, answer 200 htmlBody]) record
        World.start).world.calls.length = 0 := by
  refine ⟨rfl, rfl⟩

/-- C10, counterexample. The pass service answers with six passes: the
callback orchestrator hands all six to the caller, more than 5. -/
theorem six_passes_are_delivered :
    nextISSTimesForMyLocation sampleParse
        (scripted [answer 200 ipBody, answer 200 coordsBody, answer 200 sixPassBody]) record
        World.start
      = .finished ⟨["https://api.ipify.org/?format=json", "https://ipvigilante.com/1.2.3.4",
          "http://api.open-notify.org/iss-pass.json?lat=45&lon=-73"],
          [(.null, .arr sixPasses)]⟩ ∧
    sixPasses.length = 6 ∧ ¬ sixPasses.length ≤ 5 := by
  refine ⟨rfl, rfl, by decide⟩

/-- C7. The first answer has status 201 and a sound body. The callback
orchestrator stops after one request and calls back with the status error; the
promise orchestrator makes the three requests and resolves with the pass list:
the two do not request the same URLs and do not fail on the same input. -/
theorem status_201_separates_the_pipelines :
    nextISSTimesForMyLocation sampleParse
        (scripted [answer 201 ipBody, answer 200 coordsBody, answer 200 passBody]) record
        World.start
      = .finished ⟨["https://api.ipify.org/?format=json"],
          [(Error ("Status Code 201 when fetching IP. Response: " ++ ipBody), .null)]⟩ ∧
    Promised.nextISSTimesForMyLocation sampleParse
        (scripted [answer 201 ipBody, answer 200 coordsBody, answer 200 passBody]) World.start
      = .resolved (.arr [pass "1000" "600"])
          ⟨["https://api.ipify.org/?format=json", "https://ipvigilante.com/1.2.3.4",
            "http://api.open-notify.org/iss-pass.json?lat=45&lon=-73"], []⟩ := by
  refine ⟨rfl, rfl⟩

/-- The transport `routed` answers 200 or 404. -/
theorem routed_status (hist : List String) (url : String) :
    (routed hist url).statusCode = 200 ∨ is2xx (routed hist url).statusCode = false := by
  unfold routed
  split
  · exact Or.inl rfl
  · split
    · exact Or.inl rfl
    · split
      · exact Or.inl rfl
      · exact Or.inr (by decide)

/-- Where the two pipelines do agree, on a sample: the transport `routed`
answers 200 or 404 and both orchestrators deliver the sample pass list. -/
theorem pipelines_agree_witness :
    (∃ w, nextISSTimesForMyLocation sampleParse routed record World.start = .finished w ∧
        w.calls = [(.null, .arr [pass "1000" "600"])]) ∧
    (∃ wp, Promised.nextISSTimesForMyLocation sampleParse routed World.start
        = .resolved (.arr [pass "1000" "600"]) wp) :=
  have h := (pipelines_agree_when_no_other_2xx sampleParse routed
    (fun hist url _ => routed_status hist url)).1 (.arr [pass "1000" "600"])
  ⟨⟨_, rfl, rfl⟩, h.1 ⟨_, rfl, rfl⟩⟩

/-- C9, witness. The sample body of the IP service. -/
theorem fetchMyIP_witness :
    fetchMyIP sampleParse (scripted [answer 200 ipBody]) record World.start
      = .finished ⟨[] ++ ["https://api.ipify.org/?format=json"],
          [] ++ [(.null, .str "1.2.3.4")]⟩ :=
  fetchMyIP_hands_back_the_ip_string sampleParse (scripted [answer 200 ipBody]) World.start
    [("ip", .str "1.2.3.4")] "1.2.3.4" rfl rfl rfl rfl

/-- C2, witness. The sample run delivers its one pass; with an empty
`response` the result is the empty array. -/
theorem all_stages_ok_witness :
    nextISSTimesForMyLocation sampleParse
        (scripted [answer 200 ipBody, answer 200 coordsBody, answer 200 passBody]) record
        World.start
      = .finished ⟨["https://api.ipify.org/?format=json", "https://ipvigilante.com/" ++ "1.2.3.4",
          "http://api.open-notify.org/iss-pass.json?lat=" ++ "45" ++ "&lon=" ++ "-73"],
          [(.null, .arr [pass "1000" "600"])]⟩ ∧
    nextISSTimesForMyLocation sampleParse
        (scripted [answer 200 ipBody, answer 200 coordsBody, answer 200 noPassBody]) record
        World.start
      = .finished ⟨["https://api.ipify.org/?format=json", "https://ipvigilante.com/" ++ "1.2.3.4",
          "http://api.open-notify.org/iss-pass.json?lat=" ++ "45" ++ "&lon=" ++ "-73"],
          [(.null, .arr [])]⟩ :=
  ⟨all_stages_ok_delivers_the_response_array sampleParse
      (scripted [answer 200 ipBody, answer 200 coordsBody, answer 200 passBody])
      [("ip", .str "1.2.3.4")]
      [("data", .obj [("latitude", .num "45"), ("longitude", .num "-73")])]
      [("latitude", .num "45"), ("longitude", .num "-73")]
      [("response", .arr [pass "1000" "600"])] "1.2.3.4" "45" "-73" (.num "45") (.num "-73")
      [pass "1000" "600"] rfl rfl rfl rfl rfl rfl rfl rfl rfl rfl rfl rfl rfl rfl rfl rfl,
   all_stages_ok_delivers_the_response_array sampleParse
      (scripted [answer 200 ipBody, answer 200 coordsBody, answer 200 noPassBody])
      [("ip", .str "1.2.3.4")]
      [("data", .obj [("latitude", .num "45"), ("longitude", .num "-73")])]
      [("latitude", .num "45"), ("longitude", .num "-73")]
      [("response", .arr [])] "1.2.3.4" "45" "-73" (.num "45") (.num "-73")
      [] rfl rfl rfl rfl rfl rfl rfl rfl rfl rfl rfl rfl rfl rfl rfl rfl⟩

/-- Stages that report their error, on samples: a transport error at the
first request; status 404 at the second; a transport error at the third. -/
theorem first_failure_witness :
    (∃ w, nextISSTimesForMyLocation sampleParse (scripted [offline]) record World.start
        = .finished w ∧
      w.requests = ["https://api.ipify.org/?format=json"] ∧ w.requests.length = 1 ∧
      w.calls = [(offline.error, .null)]) ∧
    (∃ w, nextISSTimesForMyLocation sampleParse
          (scripted [answer 200 ipBody, answer 404 "Not Found"]) record World.start
        = .finished w ∧
      w.requests = ["https://api.ipify.org/?format=json", "https://ipvigilante.com/1.2.3.4"] ∧
      w.requests.length = 2 ∧
      w.calls = [(Error
        "Status Code 404 when fetching coordinates for 1.2.3.4. Response: Not Found", .null)]) ∧
    (∃ w, nextISSTimesForMyLocation sampleParse
          (scripted [answer 200 ipBody, answer 200 coordsBody, offline]) record World.start
        = .finished w ∧
      w.requests = ["https://api.ipify.org/?format=json", "https://ipvigilante.com/1.2.3.4",
        "http://api.open-notify.org/iss-pass.json?lat=45&lon=-73"] ∧
      w.requests.length = 3 ∧ w.calls = [(offline.error, .null)]) :=
  ⟨(first_failure_aborts_and_is_propagated sampleParse (scripted [offline]) offline.error
      rfl).1 .null ⟨["https://api.ipify.org/?format=json"], [(offline.error, .null)]⟩ rfl rfl,
   (first_failure_aborts_and_is_propagated sampleParse
      (scripted [answer 200 ipBody, answer 404 "Not Found"])
      (Error "Status Code 404 when fetching coordinates for 1.2.3.4. Response: Not Found")
      rfl).2.1 .null (.str "1.2.3.4")
      ⟨["https://api.ipify.org/?format=json"], [(.null, .str "1.2.3.4")]⟩ .null
      ⟨["https://api.ipify.org/?format=json", "https://ipvigilante.com/1.2.3.4"],
        [(Error "Status Code 404 when fetching coordinates for 1.2.3.4. Response: Not Found",
          .null)]⟩ rfl rfl rfl rfl rfl,
   (first_failure_aborts_and_is_propagated sampleParse
      (scripted [answer 200 ipBody, answer 200 coordsBody, offline]) offline.error
      rfl).2.2 .null (.str "1.2.3.4")
      ⟨["https://api.ipify.org/?format=json"], [(.null, .str "1.2.3.4")]⟩ .null
      (.obj [("latitude", .num "45"), ("longitude", .num "-73")])
      ⟨["https://api.ipify.org/?format=json", "https://ipvigilante.com/1.2.3.4"],
        [(.null, .obj [("latitude", .num "45"), ("longitude", .num "-73")])]⟩ .null
      ⟨["https://api.ipify.org/?format=json", "https://ipvigilante.com/1.2.3.4",
        "http://api.open-notify.org/iss-pass.json?lat=45&lon=-73"],
        [(offline.error, .null)]⟩ rfl rfl rfl rfl rfl rfl rfl rfl⟩

/-- C3, witness. Status 404 with the body `Not Found`, at each resolver. -/
theorem non200_status_witness :
    (∃ msg, fetchMyIP sampleParse (scripted [answer 404 "Not Found"]) record World.start
        = .finished ⟨World.start.requests ++ ["https://api.ipify.org/?format=json"],
            World.start.calls ++ [(Error msg, .null)]⟩ ∧
      Error msg ≠ .null ∧ (Error msg).message = some msg ∧
      (toString 404).data <:+: msg.data ∧ "Not Found".data <:+: msg.data) ∧
    (∃ msg, fetchCoordsByIP sampleParse (scripted [answer 404 "Not Found"]) (.str "1.2.3.4")
          record World.start
        = .finished ⟨World.start.requests ++ ["https://ipvigilante.com/" ++ "1.2.3.4"],
            World.start.calls ++ [(Error msg, .null)]⟩ ∧
      Error msg ≠ .null ∧ (Error msg).message = some msg ∧
      (toString 404).data <:+: msg.data ∧ "Not Found".data <:+: msg.data) ∧
    (∃ msg, fetchISSFlyOverTimes sampleParse (scripted [answer 404 "Not Found"])
          (.obj [("latitude", .num "45"), ("longitude", .num "-73")]) record World.start
        = .finished ⟨World.start.requests
            ++ ["http://api.open-notify.org/iss-pass.json?lat=" ++ "45" ++ "&lon=" ++ "-73"],
            World.start.calls ++ [(Error msg, .null)]⟩ ∧
      Error msg ≠ .null ∧ (Error msg).message = some msg ∧
      (toString 404).data <:+: msg.data ∧ "Not Found".data <:+: msg.data) :=
  ⟨(non200_status_is_reported_with_code_and_body sampleParse
      (scripted [answer 404 "Not Found"]) World.start 404 "Not Found" (by decide)).1
      rfl rfl rfl,
   (non200_status_is_reported_with_code_and_body sampleParse
      (scripted [answer 404 "Not Found"]) World.start 404 "Not Found" (by decide)).2.1
      (.str "1.2.3.4") "1.2.3.4" rfl rfl rfl rfl,
   (non200_status_is_reported_with_code_and_body sampleParse
      (scripted [answer 404 "Not Found"]) World.start 404 "Not Found" (by decide)).2.2
      (.num "45") (.num "-73") "45" "-73" rfl rfl rfl rfl rfl⟩

/-- C8, witness. The three URLs of the sample run. -/
theorem each_stage_output_witness :
    (nextISSTimesForMyLocation sampleParse
        (scripted [answer 200 ipBody, answer 200 coordsBody, answer 200 passBody]) record
        World.start).world.requests
      = ["https://api.ipify.org/?format=json", "https://ipvigilante.com/" ++ "1.2.3.4",
          "http://api.open-notify.org/iss-pass.json?lat=" ++ "45" ++ "&lon=" ++ "-73"] :=
  (each_stage_output_is_the_next_request sampleParse
    (scripted [answer 200 ipBody, answer 200 coordsBody, answer 200 passBody])).2
    [("ip", .str "1.2.3.4")] "1.2.3.4"
    [("data", .obj [("latitude", .num "45"), ("longitude", .num "-73")])]
    [("latitude", .num "45"), ("longitude", .num "-73")] (.num "45") (.num "-73") "45" "-73"
    rfl rfl rfl rfl rfl rfl rfl rfl rfl rfl rfl rfl

/-- C1. A stage that fails by throwing hands no error to the caller. The
second answer is status 200 with a body that is not JSON: `fetchCoordsByIP` is
the first stage to fail, two requests were made, and the caller's callback
receives nothing. The first answer has an `ip` that is an object with an own
`toString`: `fetchCoordsByIP` is the first stage to fail, it throws before its
request, so one request was made and not two, and the caller's callback
receives nothing. -/
theorem failure_by_exception_hands_no_error_to_the_caller :
    nextISSTimesForMyLocation sampleParse
        (scripted [answer 200 ipBody, answer 200 htmlBody]) record World.start
      = .uncaught .syntaxError ⟨["https://api.ipify.org/?format=json",
          "https://ipvigilante.com/1.2.3.4"], []⟩ ∧
    fetchMyIP sampleParse (scripted [answer 200 oddIpBody]) record World.start
      = .finished ⟨["https://api.ipify.org/?format=json"],
          [(.null, .obj [("toString", .num "1")])]⟩ ∧
    nextISSTimesForMyLocation sampleParse
        (scripted [answer 200 oddIpBody, answer 200 coordsBody, answer 200 passBody]) record
        World.start
      = .uncaught .typeError ⟨["https://api.ipify.org/?format=json"], []⟩ := by
  refine ⟨rfl, rfl, rfl⟩

/-- C10, amended. In every fully successful run the caller receives the whole
`response` array of the pass service: the list delivered is that array and has
as many entries as it, whatever their number. -/
theorem whole_response_array_is_delivered (parse : String → Option JVal)
    (t : Transport) (f1 f2 fd f3 : List (String × JVal)) (s L G : String) (la lo : JVal)
    (xs : List JVal)
    (herr1 : (t [] "https://api.ipify.org/?format=json").error = .null)
    (hst1 : (t [] "https://api.ipify.org/?format=json").statusCode = 200)
    (hp1 : parse (t [] "https://api.ipify.org/?format=json").body = some (.obj f1))
    (hip : lookupField "ip" f1 = some (.str s))
    (herr2 : (t ["https://api.ipify.org/?format=json"] ("https://ipvigilante.com/" ++ s)).error
      = .null)
    (hst2 : (t ["https://api.ipify.org/?format=json"]
      ("https://ipvigilante.com/" ++ s)).statusCode = 200)
    (hp2 : parse (t ["https://api.ipify.org/?format=json"]
      ("https://ipvigilante.com/" ++ s)).body = some (.obj f2))
    (hdata : lookupField "data" f2 = some (.obj fd))
    (hla : lookupField "latitude" fd = some la) (hlo : lookupField "longitude" fd = some lo)
    (hL : toStr la = .ok L) (hG : toStr lo = .ok G)
    (herr3 : (t ["https://api.ipify.org/?format=json", "https://ipvigilante.com/" ++ s]
      ("http://api.open-notify.org/iss-pass.json?lat=" ++ L ++ "&lon=" ++ G)).error = .null)
    (hst3 : (t ["https://api.ipify.org/?format=json", "https://ipvigilante.com/" ++ s]
      ("http://api.open-notify.org/iss-pass.json?lat=" ++ L ++ "&lon=" ++ G)).statusCode
      = 200)
    (hp3 : parse (t ["https://api.ipify.org/?format=json", "https://ipvigilante.com/" ++ s]
      ("http://api.open-notify.org/iss-pass.json?lat=" ++ L ++ "&lon=" ++ G)).body
      = some (.obj f3))
    (hresp : lookupField "response" f3 = some (.arr xs)) :
    ∃ ys, (nextISSTimesForMyLocation parse t record World.start).world.calls
        = [(.null, .arr ys)] ∧ ys = xs ∧ ys.length = xs.length := by
  refine ⟨xs, ?_, rfl, rfl⟩
  simp [nextISSTimesForMyLocation, fetchMyIP, fetchCoordsByIP, fetchISSFlyOverTimes, request,
    attempt, record, World.start, truthy, jsonParse, getProp, lookupField, toStr, bind,
    Except.bind, Outcome.world, herr1, hst1, hp1, hip, herr2, hst2, hp2, hdata, hla, hlo, hL,
    hG, herr3, hst3, hp3, hresp]

/-- C10, witness. Six passes in the `response` array: six entries delivered. -/
theorem whole_response_array_witness :
    ∃ ys, (nextISSTimesForMyLocation sampleParse
        (scripted [answer 200 ipBody, answer 200 coordsBody, answer 200 sixPassBody]) record
        World.start).world.calls = [(.null, .arr ys)] ∧ ys = sixPasses
      ∧ ys.length = sixPasses.length :=
  whole_response_array_is_delivered sampleParse
    (scripted [answer 200 ipBody, answer 200 coordsBody, answer 200 sixPassBody])
    [("ip", .str "1.2.3.4")]
    [("data", .obj [("latitude", .num "45"), ("longitude", .num "-73")])]
    [("latitude", .num "45"), ("longitude", .num "-73")]
    [("response", .arr sixPasses)] "1.2.3.4" "45" "-73" (.num "45") (.num "-73")
    sixPasses rfl rfl rfl rfl rfl rfl rfl rfl rfl rfl rfl rfl rfl rfl rfl rfl

end IssSpotter
